import Mathlib

/-!
Shallow embedding of `src/api/app.py` (a FastAPI relay with three handlers:
a streaming chat relay, a leaderboard gateway, and a health check) and
verification of the frozen claims about it.

Modelling conventions:
* A Python `dict[str, str]` literal is represented as an association list
  `List (String × String)` in literal order.
* External effects (the OpenAI client construction, the streaming completion
  call, the Supabase insert and RPC calls) are represented by explicit
  parameters describing their outcome (`Except String _` for calls that either
  raise an exception with a textual message or return a value).
* Raised `HTTPException`s are represented by the `HTTPExc` structure; FastAPI
  turns the last one raised into an HTTP response whose status and JSON
  `detail` field are the fields of that structure.  The FastAPI
  `HTTPException` derives from the Starlette one, whose string form
  (`__str__`) is "{status_code}: {detail}"; `strOfHTTPExc` embeds that.
* The calls the leaderboard handler issues to the external database are
  recorded in a trace of `DbEvent`s, in issue order.
-/

/-- The `ChatRequest` pydantic model: `developer_message` and `user_message`
are required strings, `model` defaults to "gpt-4.1-mini", and
`message_history` is an optional list of string-keyed dicts defaulting to the
empty list (`none` models an explicit JSON null). -/
structure ChatRequest where
  developer_message : String
  user_message : String
  model : String := "gpt-4.1-mini"
  message_history : Option (List (List (String × String))) := some []
deriving DecidableEq, Repr

/-- The dict literal `{"role": "developer", "content": c}` built by `generate`. -/
def devDict (c : String) : List (String × String) :=
  [("role", "developer"), ("content", c)]

/-- The dict literal `{"role": "user", "content": c}` built by `generate`. -/
def userDict (c : String) : List (String × String) :=
  [("role", "user"), ("content", c)]

/-- Python truthiness of `request.message_history`: false for `None` and for
the empty list, true for a non-empty list. -/
def truthyHistory : Option (List (List (String × String))) → Bool
  | none => false
  | some h => !h.isEmpty

/-- The `messages` list built at the top of `generate` in `src/api/app.py`:
start from `[{"role": "developer", ...}]`, extend with `message_history` when
it is truthy, then append `{"role": "user", ...}`. -/
def buildMessages (req : ChatRequest) : List (List (String × String)) :=
  let messages := [devDict req.developer_message]
  let messages :=
    if truthyHistory req.message_history
    then messages ++ req.message_history.getD []
    else messages
  messages ++ [userDict req.user_message]

/-- The relay loop of `generate`: for each chunk of the provider stream, yield
`chunk.choices[0].delta.content` exactly when it `is not None`.  A chunk is
represented by its delta content, `none` for a delta with no text content. -/
def relayYields : List (Option String) → List String
  | [] => []
  | some s :: rest => s :: relayYields rest
  | none :: rest => relayYields rest

/-- Outcome of the call `client.chat.completions.create(..., stream=True)`
made inside the body of `generate`: either the call itself raises (with the
given message), or it returns a stream that delivers the given delta contents
and then either ends normally (`iterError = none`) or raises during iteration
(`iterError = some msg`). -/
inductive ProviderResult where
  | createFailed (msg : String)
  | created (chunks : List (Option String)) (iterError : Option String)
deriving DecidableEq, Repr

/-- What the caller of `POST /api/chat` observes: either a clean error
response produced from an `HTTPException` raised before any response started,
or a streamed response (status sent first, then the body chunks, then either
normal end of stream or an abort caused by the recorded exception). -/
inductive ChatOutcome where
  | errorResponse (status : Nat) (detail : String)
  | streamedResponse (status : Nat) (body : List String) (abortError : Option String)
deriving DecidableEq, Repr

/-- Execution of the body of the async generator `generate`: build the
messages, make the streaming completion call, and relay the textual deltas.
Returns the list of yielded strings and the exception (if any) that escaped
the generator.  The generator body contains no try/except of its own. -/
def generateRun (req : ChatRequest) (prov : ProviderResult) :
    List String × Option String :=
  let _messages := buildMessages req
  match prov with
  | .createFailed m => ([], some m)
  | .created chunks iterError => (relayYields chunks, iterError)

/-- The `chat` handler of `POST /api/chat`.  Its try block constructs the
OpenAI client (`clientInit` is the outcome of `OpenAI()`), defines `generate`,
and returns `StreamingResponse(generate(), ...)`.  Calling an async generator
function only creates the generator object and executes none of its body, so
the try block succeeds whenever `OpenAI()` does; the generator body
(`generateRun`) executes later, while the streamed response is being sent,
outside the scope of the except clause.  Only an exception raised inside the
try block (in practice, by `OpenAI()`) reaches
`raise HTTPException(status_code=500, detail=str(e))`. -/
def chat (req : ChatRequest) (clientInit : Except String Unit)
    (prov : ProviderResult) : ChatOutcome :=
  match clientInit with
  | .error m => ChatOutcome.errorResponse 500 m
  | .ok _ =>
    let r := generateRun req prov
    ChatOutcome.streamedResponse 200 r.1 r.2

/-- The `LeaderboardEntry` pydantic model. -/
structure LeaderboardEntry where
  initials : String
  score : Int
deriving DecidableEq, Repr

/-- One call issued by `submit_score` to the external database, in issue
order: the insert into the `leaderboard` table (the client-generated
`created_at` timestamp is not modelled), and the RPC to the
`get_leaderboard_window` procedure with its three named parameters. -/
inductive DbEvent where
  | insertRow (initials : String) (score : Int)
  | rpcCall (proc : String) (p_initials : String) (p_score : Int) (p_window_size : Nat)
deriving DecidableEq, Repr

/-- What the caller of `POST /api/leaderboard` observes: a JSON array of rows
(of an abstract row type `ρ`, opaque to this system) or an error response
produced from the last `HTTPException` raised. -/
inductive SubmitOutcome (ρ : Type) where
  | rows (data : List ρ)
  | httpError (status : Nat) (detail : String)
deriving DecidableEq, Repr

/-- A raised `fastapi.HTTPException`, carrying the HTTP status code and the
detail string. -/
structure HTTPExc where
  status_code : Nat
  detail : String
deriving DecidableEq, Repr

/-- Python `str(e)` for a FastAPI `HTTPException`: FastAPI derives it from the
Starlette `HTTPException`, whose string form is "{status_code}: {detail}". -/
def strOfHTTPExc (e : HTTPExc) : String :=
  toString e.status_code ++ ": " ++ e.detail

/-- The constant `window_size = 3` set in `submit_score`. -/
def window_size : Nat := 3

/-- The inner try block of `submit_score`: call the database procedure
(`rpcRes` is the outcome of `supabase.rpc(...).execute()`, an exception
message or the returned rows), return `[]` when `result.data` is falsy and
`result.data` itself otherwise; the inner except clause turns an exception
with message `m` into `raise HTTPException(status_code=500, detail=m)`,
represented as `Except.error ⟨500, m⟩`. -/
def leaderboardQuery {ρ : Type} (rpcRes : Except String (List ρ)) :
    Except HTTPExc (List ρ) :=
  match rpcRes with
  | .error m => .error ⟨500, m⟩
  | .ok data => .ok (if data.isEmpty then [] else data)

/-- The `submit_score` handler of `POST /api/leaderboard`.  `insertRes` is
the outcome of `supabase.table('leaderboard').insert(...).execute()` and
`rpcRes` the outcome of the windowed-rank RPC.  Control flow of the source:
the outer try first runs the insert, then the inner try (`leaderboardQuery`);
an `HTTPException` raised by the inner except clause is itself an `Exception`,
so the outer `except Exception as e` catches it and raises
`HTTPException(status_code=500, detail=str(e))` with `str` of the inner
`HTTPException` as detail.  An exception raised by the insert reaches the
outer except clause directly, so its own message becomes the detail.  The
result pairs the trace of database calls issued with the observed outcome. -/
def submit_score {ρ : Type} (entry : LeaderboardEntry)
    (insertRes : Except String Unit) (rpcRes : Except String (List ρ)) :
    List DbEvent × SubmitOutcome ρ :=
  match insertRes with
  | .error m =>
    ([DbEvent.insertRow entry.initials entry.score],
     SubmitOutcome.httpError 500 m)
  | .ok _ =>
    let trace := [DbEvent.insertRow entry.initials entry.score,
                  DbEvent.rpcCall "get_leaderboard_window" entry.initials
                    entry.score window_size]
    match leaderboardQuery rpcRes with
    | .error he => (trace, SubmitOutcome.httpError 500 (strOfHTTPExc he))
    | .ok data => (trace, SubmitOutcome.rows data)

/-- The `health_check` handler of `GET /api/health`: it consults nothing (the
ambient state of the external dependencies is passed as an ignored parameter
of arbitrary type to express that) and returns status 200 with body
`{"status": "ok"}`.  Its return type is total: it has no failure path. -/
def health_check {σ : Type} (_ : σ) : Nat × List (String × String) :=
  (200, [("status", "ok")])

/-- Helper: the last element of a list with an element appended. -/
theorem getLast?_append_singleton {α : Type} (l : List α) (a : α) :
    (l ++ [a]).getLast? = some a := by
  rw [List.getLast?_append_cons]
  rfl

/-- Helper: the messages list as one concatenation. -/
theorem buildMessages_eq (req : ChatRequest) :
    buildMessages req =
      [devDict req.developer_message] ++ req.message_history.getD [] ++
        [userDict req.user_message] := by
  unfold buildMessages
  rcases h : req.message_history with _ | l
  · simp [truthyHistory]
  · cases l <;> simp [truthyHistory]

/-- C1: for every valid `ChatRequest`, the messages list sent to the provider
is the developer-role dict, then the elements of `message_history` in their
original order, then the user-role dict; in particular the developer message
is element 0 and the user message is the last element. -/
theorem buildMessages_ordering (req : ChatRequest) :
    buildMessages req =
      [devDict req.developer_message] ++ req.message_history.getD [] ++
        [userDict req.user_message] ∧
    (buildMessages req).head? = some (devDict req.developer_message) ∧
    (buildMessages req).getLast? = some (userDict req.user_message) := by
  refine ⟨buildMessages_eq req, ?_, ?_⟩
  · rw [buildMessages_eq req]; rfl
  · rw [buildMessages_eq req]
    exact getLast?_append_singleton _ _

/-- Helper: relaying a stream whose chunks all carry text content yields
exactly those contents, in order. -/
theorem relayYields_map_some (cs : List String) :
    relayYields (List.map some cs) = cs := by
  induction cs with
  | nil => rfl
  | cons c t ih => simpa [relayYields] using ih

/-- C2: for every finite provider stream whose fragments all carry text
content, the handler streams exactly those fragments, in arrival order, and
the bytes the caller observes are their concatenation; on the spec example
["Hel", "lo", " world"] the concatenation is "Hello world". -/
theorem chat_stream_preserves_order :
    (∀ (req : ChatRequest) (cs : List String),
        chat req (Except.ok ()) (ProviderResult.created (List.map some cs) none) =
          ChatOutcome.streamedResponse 200 cs none) ∧
    (∀ (cs : List String),
        String.join (relayYields (List.map some cs)) = String.join cs) ∧
    String.join (relayYields (List.map some ["Hel", "lo", " world"])) =
      "Hello world" := by
  refine ⟨?_, ?_, ?_⟩
  · intro req cs
    simp [chat, generateRun, relayYields_map_some]
  · intro cs
    rw [relayYields_map_some]
  · rfl

/-- C3 (code bug evidence): when constructing the outbound streaming call
raises (message "boom"), or when iteration of the provider stream raises
after one fragment, the handler does not produce an HTTP 500 error response
carrying the message: it has already returned a 200 streaming response, whose
body is then aborted by the uncaught exception, because the generator body
runs outside the try/except of `chat`. -/
theorem chat_failure_streams_200_instead_of_500 :
    chat ⟨"You are helpful", "hi", "gpt-4.1-mini", some []⟩ (Except.ok ())
        (ProviderResult.createFailed "boom") =
      ChatOutcome.streamedResponse 200 [] (some "boom") ∧
    chat ⟨"You are helpful", "hi", "gpt-4.1-mini", some []⟩ (Except.ok ())
        (ProviderResult.createFailed "boom") ≠
      ChatOutcome.errorResponse 500 "boom" ∧
    chat ⟨"You are helpful", "hi", "gpt-4.1-mini", some []⟩ (Except.ok ())
        (ProviderResult.created [some "Hel"] (some "neterr")) =
      ChatOutcome.streamedResponse 200 ["Hel"] (some "neterr") ∧
    chat ⟨"You are helpful", "hi", "gpt-4.1-mini", some []⟩ (Except.ok ())
        (ProviderResult.created [some "Hel"] (some "neterr")) ≠
      ChatOutcome.errorResponse 500 "neterr" := by
  exact ⟨rfl, by decide, rfl, by decide⟩

/-- C4 (counterexample): when the insert succeeds and the windowed-rank RPC
raises with message "boom", the detail the caller receives is "500: boom"
(the string form of the inner HTTPException, re-wrapped by the outer except
clause), not "boom" as the claim states. -/
theorem submit_rpc_failure_wraps_detail :
    (submit_score ⟨"AAA", 100⟩ (Except.ok ())
        (Except.error "boom" : Except String (List Unit))).2 =
      SubmitOutcome.httpError 500 "500: boom" ∧
    (submit_score ⟨"AAA", 100⟩ (Except.ok ())
        (Except.error "boom" : Except String (List Unit))).2 ≠
      SubmitOutcome.httpError 500 "boom" := by
  exact ⟨rfl, by decide⟩

/-- C4 (amended): a failure of step (a), the insert, with message `m` is
surfaced as HTTP 500 with detail exactly `m`; a failure of step (b), the
windowed-rank RPC, with message `m` is surfaced as HTTP 500 whose detail is
the string form "500: " ++ m of the internally raised 500 error, which embeds
`m` but is not equal to it. -/
theorem submit_error_details (ρ : Type) (entry : LeaderboardEntry)
    (m : String) (rpcRes : Except String (List ρ)) :
    (submit_score entry (Except.error m) rpcRes).2 =
      SubmitOutcome.httpError 500 m ∧
    (submit_score entry (Except.ok ())
        (Except.error m : Except String (List ρ))).2 =
      SubmitOutcome.httpError 500 ("500: " ++ m) := by
  refine ⟨rfl, ?_⟩
  show SubmitOutcome.httpError 500 (strOfHTTPExc ⟨500, m⟩) =
    SubmitOutcome.httpError 500 ("500: " ++ m)
  have h : strOfHTTPExc ⟨500, m⟩ = "500: " ++ m := by
    show toString (500 : Nat) ++ ": " ++ m = "500: " ++ m
    rfl
  rw [h]

/-- C5: a delta with no text content, wherever it occurs in the stream,
produces no write at all: the sequence of writes is the same as for the
stream with that delta removed, both at the level of the relay loop and of
the whole handler. -/
theorem relay_drops_contentless_deltas :
    (∀ pre post : List (Option String),
        relayYields (pre ++ none :: post) = relayYields (pre ++ post)) ∧
    (∀ (req : ChatRequest) (pre post : List (Option String))
        (e : Option String),
        chat req (Except.ok ()) (ProviderResult.created (pre ++ none :: post) e) =
          chat req (Except.ok ()) (ProviderResult.created (pre ++ post) e)) := by
  have key : ∀ pre post : List (Option String),
      relayYields (pre ++ none :: post) = relayYields (pre ++ post) := by
    intro pre post
    induction pre with
    | nil => rfl
    | cons c t ih => cases c <;> simp [relayYields, ih]
  refine ⟨key, ?_⟩
  intro req pre post e
  simp [chat, generateRun, key]

/-- C6: for every submission whose insert succeeds, the handler issues
exactly two external calls, in order: one insert of the entry, then the
windowed-rank RPC parameterized with exactly the entry initials, the entry
score and the fixed window size 3 — whatever the RPC outcome is. -/
theorem submit_trace_events (ρ : Type) (entry : LeaderboardEntry)
    (rpcRes : Except String (List ρ)) :
    (submit_score entry (Except.ok ()) rpcRes).1 =
      [DbEvent.insertRow entry.initials entry.score,
       DbEvent.rpcCall "get_leaderboard_window" entry.initials entry.score 3] := by
  cases rpcRes <;> rfl

/-- C7 (counterexample): when the insert fails with an exception whose
message is the empty string, the caller receives HTTP 500 with detail "",
so the detail is not non-empty as the claim states. -/
theorem submit_insert_failure_empty_detail :
    (submit_score ⟨"AAA", 100⟩ (Except.error "")
        (Except.ok ([] : List Unit))).2 = SubmitOutcome.httpError 500 "" ∧
    ¬ ∃ d : String, d ≠ "" ∧
      (submit_score ⟨"AAA", 100⟩ (Except.error "")
          (Except.ok ([] : List Unit))).2 = SubmitOutcome.httpError 500 d := by
  refine ⟨rfl, ?_⟩
  rintro ⟨d, hd, h⟩
  injection h with h1 h2
  exact hd h2.symm

/-- C7 (amended): when step (a), the insert, fails with message `m`, no
windowed-rank RPC is issued (the trace holds only the insert call) and the
caller receives HTTP 500 with detail exactly `m` — non-empty exactly when
the message of the failure is. -/
theorem submit_insert_failure_no_query (ρ : Type) (entry : LeaderboardEntry)
    (m : String) (rpcRes : Except String (List ρ)) :
    (submit_score entry (Except.error m) rpcRes).1 =
      [DbEvent.insertRow entry.initials entry.score] ∧
    (submit_score entry (Except.error m) rpcRes).2 =
      SubmitOutcome.httpError 500 m :=
  ⟨rfl, rfl⟩

/-- C8: for every successful submission, the handler returns the rows the
external procedure produced, verbatim, and the empty sequence when the
procedure returns nothing. -/
theorem submit_returns_rows_verbatim (ρ : Type) (entry : LeaderboardEntry)
    (data : List ρ) :
    (submit_score entry (Except.ok ()) (Except.ok data)).2 =
      SubmitOutcome.rows data ∧
    (submit_score entry (Except.ok ())
        (Except.ok ([] : List ρ))).2 = SubmitOutcome.rows [] := by
  constructor
  · show SubmitOutcome.rows (if data.isEmpty then [] else data) =
      SubmitOutcome.rows data
    cases data <;> rfl
  · rfl

/-- C9: the health check handler, whatever the state of the external
dependencies (any value of any type), returns HTTP 200 with body
`{"status": "ok"}`; its type is total, so it has no failure path. -/
theorem health_check_always_ok (σ : Type) (s : σ) :
    health_check s = (200, [("status", "ok")]) := rfl

/-- C10: the messages sequence sent to the provider is a deterministic
function of the request fields alone: two requests with equal
`developer_message`, `user_message`, `model` and `message_history` yield
identical messages sequences. -/
theorem buildMessages_deterministic (r1 r2 : ChatRequest)
    (h1 : r1.developer_message = r2.developer_message)
    (h2 : r1.user_message = r2.user_message)
    (h3 : r1.model = r2.model)
    (h4 : r1.message_history = r2.message_history) :
    buildMessages r1 = buildMessages r2 := by
  cases r1
  cases r2
  simp only at h1 h2 h3 h4
  subst h1 h2 h3 h4
  rfl

/-- Witness for C10 at a concrete request with a one-element history. -/
theorem buildMessages_deterministic_witness :
    buildMessages ⟨"be brief", "hi", "gpt-4.1-mini",
        some [[("role", "assistant"), ("content", "x")]]⟩ =
      buildMessages ⟨"be brief", "hi", "gpt-4.1-mini",
        some [[("role", "assistant"), ("content", "x")]]⟩ :=
  buildMessages_deterministic _ _ rfl rfl rfl rfl
